import Mathlib

/-!
Verification of the PDF page-transformation utilities
(`modify-pdf.py`, `modify_pdf.py`, `modify_pdf_multiprocess.py`).

Pages are modelled by their mediabox dimensions, as exact rationals
(the Python code computes with floats; all claims are about the exact
arithmetic formulas the code evaluates).  Each transformation consumes a
list of pages and produces destination pages; a destination page records
its blank-page dimensions together with the ordered list of merge
operations (source page, uniform scale about the origin, translation)
composited onto it, exactly the data the code passes to
`add_blank_page` / `merge_page` / `merge_transformed_page`.
Fallible steps return `Except PdfError`; raising an exception in the
Python code corresponds to an `.error` result.
-/

namespace ModifyPdf

/-- A PDF page, abstracted to its mediabox dimensions in PostScript points. -/
structure Page where
  width : ℚ
  height : ℚ
  deriving DecidableEq, Repr

/-- One composition of a source page onto a destination page: the source is
scaled uniformly about the origin by `scale`, then translated by `(dx, dy)`.
`merge_page(p)` is the identity transform `scale = 1, dx = dy = 0`. -/
structure MergeOp where
  source : Page
  scale : ℚ
  dx : ℚ
  dy : ℚ
  deriving DecidableEq, Repr

/-- A destination page produced by `add_blank_page(width, height)` followed by
the ordered merge operations `ops`. -/
structure DestPage where
  width : ℚ
  height : ℚ
  ops : List MergeOp
  deriving DecidableEq, Repr

/-- The mediabox dimensions of a produced destination page, i.e. what a later
chain step sees after the page is written and reopened. -/
def DestPage.toPage (d : DestPage) : Page :=
  ⟨d.width, d.height⟩

/-- The error taxonomy of the code: each constructor corresponds to one family
of raised exceptions (`ValueError` / `FileNotFoundError`) or, for
`emptyRange`, to the early-return branch for an empty page range. -/
inductive PdfError where
  | fileNotFound
  | invalidRange
  | emptyRange
  | invalidMargin
  | emptyBackground
  | emptyMergeSource
  | unknownPaperSize
  deriving DecidableEq, Repr

/-- A configured auxiliary file path: either the path does not exist on disk
(`_verify_paths` raises `FileNotFoundError`), or it is a document with the
given pages. -/
inductive FileRef where
  | absent
  | doc (pages : List Page)
  deriving DecidableEq, Repr

/-! ### The paper-size registry

`_BASE_PAPER_SIZES` in `modify_pdf_multiprocess.py` (identical to the
`PAPER_SIZES` dictionaries of `modify_pdf.py` and `modify-pdf.py`).
The A-series entries are pypdf's integer `PaperSize` constants; the
US and B/C-series entries are written exactly as in the source, with
the millimetre-to-point conversion `v / 25.4 * 72` kept as exact
rational arithmetic. -/

/-- Base table of canonical paper sizes: `name, (width, height)` in points. -/
def BASE_PAPER_SIZES : List (String × ℚ × ℚ) :=
  [ ("A0", 2384, 3370),
    ("A1", 1684, 2384),
    ("A2", 1190, 1684),
    ("A3", 842, 1190),
    ("A4", 595, 842),
    ("A5", 420, 595),
    ("A6", 298, 420),
    ("Letter", 612, 792),
    ("Legal", 612, 1008),
    ("Tabloid", 792, 1224),
    ("B0", 1000 / 25.4 * 72, 1414 / 25.4 * 72),
    ("B1", 707 / 25.4 * 72, 1000 / 25.4 * 72),
    ("B2", 500 / 25.4 * 72, 707 / 25.4 * 72),
    ("B3", 353 / 25.4 * 72, 500 / 25.4 * 72),
    ("B4", 250 / 25.4 * 72, 353 / 25.4 * 72),
    ("B5", 176 / 25.4 * 72, 250 / 25.4 * 72),
    ("C0", 917 / 25.4 * 72, 1297 / 25.4 * 72),
    ("C1", 648 / 25.4 * 72, 917 / 25.4 * 72),
    ("C2", 458 / 25.4 * 72, 648 / 25.4 * 72),
    ("C3", 324 / 25.4 * 72, 458 / 25.4 * 72),
    ("C4", 229 / 25.4 * 72, 324 / 25.4 * 72),
    ("C5", 162 / 25.4 * 72, 229 / 25.4 * 72),
    ("C6", 114 / 25.4 * 72, 162 / 25.4 * 72) ]

/-- The landscape variant of a registry entry: the name gets the suffix
`_Landscape` and the width and height are swapped. -/
def landscapeEntry (e : String × ℚ × ℚ) : String × ℚ × ℚ :=
  (e.1 ++ "_Landscape", e.2.2, e.2.1)

/-- `PAPER_SIZES` of `modify_pdf_multiprocess.py`: the base table followed by
a generated `_Landscape` variant for every base entry (the `for` loop at
module load adds the landscape keys after the base keys, in base order). -/
def PAPER_SIZES : List (String × ℚ × ℚ) :=
  BASE_PAPER_SIZES ++ BASE_PAPER_SIZES.map landscapeEntry

/-- `PAPER_SIZES` of `modify_pdf.py` and `modify-pdf.py`: only the base
table, with no `_Landscape` entries. -/
def PAPER_SIZES_simple : List (String × ℚ × ℚ) :=
  BASE_PAPER_SIZES

/-- Dictionary lookup `table.get(name)`.  All key lists used here are
duplicate-free, so first-match lookup agrees with Python dict semantics. -/
def lookupSize : List (String × ℚ × ℚ) → String → Option (ℚ × ℚ)
  | [], _ => none
  | (n, d) :: rest, name => if n = name then some d else lookupSize rest name

/-- Dimensions `PAPER_SIZES["A4_Landscape"]` used as the fixed destination
size of the side-by-side merge (equal to
`(PaperSize.A4.height, PaperSize.A4.width)` used by `modify_pdf.py`). -/
def a4LandscapeDims : ℚ × ℚ :=
  (lookupSize PAPER_SIZES "A4_Landscape").getD (0, 0)

/-! ### The four page operations -/

/-- `_duplicate_pages`: each input page is appended twice, in order. -/
def duplicatePages {α : Type} : List α → List α
  | [] => []
  | p :: ps => p :: p :: duplicatePages ps

/-- Destination page built by `_add_note_margin` for one input page:
a blank page of width `w / (1 - marginProportion)` and the original height,
the original page merged with no transformation, and, when a background page
is configured, the background's first page scaled by
`idealHeight / backgroundHeight` and translated to `(w, 0)`. -/
def addNoteMarginPage (marginProportion : ℚ) (background : Option Page)
    (page : Page) : DestPage :=
  let idealWidth := page.width / (1 - marginProportion)
  let idealHeight := page.height
  let ops :=
    match background with
    | none => [⟨page, 1, 0, 0⟩]
    | some bg => [⟨page, 1, 0, 0⟩, ⟨bg, idealHeight / bg.height, page.width, 0⟩]
  ⟨idealWidth, idealHeight, ops⟩

/-- `_add_note_margin` on a page list, with the checks in source order:
margin validation first, then the empty-input early return, then opening the
background file (absent path raises `FileNotFoundError`, a zero-page
background document raises `ValueError`). -/
def addNoteMargin (marginProportion : ℚ) (backgroundFile : Option FileRef)
    (pages : List Page) : Except PdfError (List DestPage) :=
  if ¬ (0 ≤ marginProportion ∧ marginProportion < 1) then
    .error .invalidMargin
  else if pages.isEmpty then
    .ok []
  else
    match backgroundFile with
    | none => .ok (pages.map (addNoteMarginPage marginProportion none))
    | some .absent => .error .fileNotFound
    | some (.doc []) => .error .emptyBackground
    | some (.doc (bg :: _)) =>
        .ok (pages.map (addNoteMarginPage marginProportion (some bg)))

/-- Destination page built by `_merge_pdf_side_by_side` of
`modify_pdf_multiprocess.py` and `modify_pdf.py` for one input page:
a blank page of the given (A4-landscape) dimensions, the primary page scaled
by `min((width/2)/pageWidth, height/pageHeight)` at the origin, and the merge
page scaled by `min((width/2)/mergeWidth, height/mergeHeight)` translated to
`(width/2, 0)`. -/
def mergeSideBySidePage (width height : ℚ) (mergePage page : Page) : DestPage :=
  let scale := min ((width / 2) / page.width) (height / page.height)
  let scaleMerge :=
    min ((width / 2) / mergePage.width) (height / mergePage.height)
  ⟨width, height,
    [⟨page, scale, 0, 0⟩, ⟨mergePage, scaleMerge, width / 2, 0⟩]⟩

/-- Destination page built by `merge_pdf_side_by_side` of `modify-pdf.py`
(line 199): there `y_scale_merge = height / page_height` divides by the
primary page's height, not the merge page's own height. -/
def mergeSideBySidePageOld (width height : ℚ) (mergePage page : Page) :
    DestPage :=
  let scale := min ((width / 2) / page.width) (height / page.height)
  let scaleMerge :=
    min ((width / 2) / mergePage.width) (height / page.height)
  ⟨width, height,
    [⟨page, scale, 0, 0⟩, ⟨mergePage, scaleMerge, width / 2, 0⟩]⟩

/-- `_merge_pdf_side_by_side` on a page list, with the checks in source
order: empty-input early return first, then opening the merge file (absent
path raises `FileNotFoundError`, a zero-page merge document raises
`ValueError`); every output page uses the first page of the merge document
and the fixed A4-landscape destination size. -/
def mergeSideBySide (mergeFile : FileRef) (pages : List Page) :
    Except PdfError (List DestPage) :=
  if pages.isEmpty then
    .ok []
  else
    match mergeFile with
    | .absent => .error .fileNotFound
    | .doc [] => .error .emptyMergeSource
    | .doc (m :: _) =>
        .ok (pages.map
          (mergeSideBySidePage a4LandscapeDims.1 a4LandscapeDims.2 m))

/-- Destination page built by `_resize_pdf` for one input page: a blank page
of the target dimensions, with the original page merged at the origin scaled
by `min(targetWidth/pageWidth, targetHeight/pageHeight)`. -/
def resizePage (targetWidth targetHeight : ℚ) (page : Page) : DestPage :=
  let scale := min (targetWidth / page.width) (targetHeight / page.height)
  ⟨targetWidth, targetHeight, [⟨page, scale, 0, 0⟩]⟩

/-- `_resize_pdf` on a page list, with the checks in source order: the
registry lookup of the target size first (an unknown name raises
`ValueError`), then the empty-input early return. -/
def resizePdf (targetSize : String) (pages : List Page) :
    Except PdfError (List DestPage) :=
  match lookupSize PAPER_SIZES targetSize with
  | none => .error .unknownPaperSize
  | some (tw, th) =>
      if pages.isEmpty then .ok []
      else .ok (pages.map (resizePage tw th))

/-! ### Page-range validation and the worker pipeline

This models `_modify_and_save` of `modify_pdf_multiprocess.py` (the same
validation block appears in `modify_pdf` of `modify_pdf.py`).  Action names
are resolved to the closed `Action` type up front, mirroring the supported
action table; the page indices are integers as in Python. -/

/-- Value of the Python chained comparison
`end is not None and end <= start`. -/
def endBeforeStart (startPage : ℤ) : Option ℤ → Bool
  | some e => decide (e ≤ startPage)
  | none => false

/-- The range validation and clamping block: given the document's total page
count and the configured start and optional end index, either raise one of
the three range `ValueError`s, or return the effective (clamped) end index
together with the flag telling whether the clamping warning was printed. -/
def computeRange (totalPages startPage : ℤ) (endPage? : Option ℤ) :
    Except PdfError (ℤ × Bool) :=
  if startPage < 0 then .error .invalidRange
  else if endBeforeStart startPage endPage? then .error .invalidRange
  else if totalPages ≤ startPage then .error .invalidRange
  else if totalPages < endPage?.getD totalPages then .ok (totalPages, true)
  else .ok (endPage?.getD totalPages, false)

/-- Python list slice `xs[s:e]`.  The pipeline only evaluates it after
validation, i.e. with `0 ≤ s`, where this agrees with Python slicing. -/
def slicePages {α : Type} (xs : List α) (s e : ℤ) : List α :=
  (xs.drop s.toNat).take (e - s).toNat

/-- The validated extraction
`pages_to_process = list(reader.pages[start:end])` together with the
clamping-warning flag. -/
def selectPages {α : Type} (doc : List α) (startPage : ℤ)
    (endPage? : Option ℤ) : Except PdfError (List α × Bool) :=
  match computeRange (doc.length : ℤ) startPage endPage? with
  | .error e => .error e
  | .ok (e, warned) => .ok (slicePages doc startPage e, warned)

/-- The four supported actions, the keys of the dispatch table resolved at
chain construction (an unsupported action string is rejected before the
worker body runs). -/
inductive Action where
  | duplicate
  | add_notes
  | merge_side_by_side
  | resize
  deriving DecidableEq, Repr

/-- The parameters of one `PDFModifier` run that the worker body reads. -/
structure Config where
  actions : List Action
  marginProportion : ℚ
  targetSize : String
  startPage : ℤ
  endPage? : Option ℤ
  appendToExisting : Bool
  deriving Repr

/-- The documents the run can open: the optional input document (`none`
means no input path was configured, so no reader is opened), the optional
background file for `add_notes`, and the merge file for
`merge_side_by_side` (a missing or unconfigured merge path fails
`_verify_paths`). -/
structure DocEnv where
  input : Option FileRef
  background : Option FileRef
  mergeFile : FileRef
  deriving Repr

/-- One chain step.  The produced pages are written and reopened between
steps, so the next step sees only their mediabox dimensions
(`DestPage.toPage`); `duplicate` passes its input pages through unchanged. -/
def applyAction (cfg : Config) (env : DocEnv) (pages : List Page) :
    Action → Except PdfError (List Page)
  | .duplicate => .ok (duplicatePages pages)
  | .add_notes =>
      (addNoteMargin cfg.marginProportion env.background pages).map
        (List.map DestPage.toPage)
  | .merge_side_by_side =>
      (mergeSideBySide env.mergeFile pages).map (List.map DestPage.toPage)
  | .resize =>
      (resizePdf cfg.targetSize pages).map (List.map DestPage.toPage)

/-- The action chain, applied left to right; the first raised exception
aborts the run. -/
def applyChain (cfg : Config) (env : DocEnv) :
    List Action → List Page → Except PdfError (List Page)
  | [], pages => .ok pages
  | a :: rest, pages =>
      match applyAction cfg env pages a with
      | .error e => .error e
      | .ok out => applyChain cfg env rest out

/-- The worker body `_modify_and_save` up to the final write: open the input
document when a path is configured (otherwise process an empty page list),
validate and slice the page range, take the empty-range early return, and
run the action chain.  An `.ok` result means the output file is written with
exactly these pages; any `.error` aborts the run before the write. -/
def runModify (cfg : Config) (env : DocEnv) : Except PdfError (List Page) :=
  match env.input with
  | some .absent => .error .fileNotFound
  | some (.doc doc) =>
      match selectPages doc cfg.startPage cfg.endPage? with
      | .error e => .error e
      | .ok (pages, _) =>
          if pages.isEmpty && !cfg.actions.isEmpty then .error .emptyRange
          else applyChain cfg env cfg.actions pages
  | none =>
      if cfg.actions.isEmpty then applyChain cfg env cfg.actions []
      else .error .emptyRange

/-- Content of the output file after the run, given its prior content
(`none` = the file does not exist).  The single `open(output, "wb")` write
happens only on the success path, after all actions; every raised exception
skips it and leaves the output path in its prior state.  With
`append_to_existing` the existing pages are loaded first and the new pages
are appended. -/
def finalOutputFile (cfg : Config) (env : DocEnv)
    (prior : Option (List Page)) : Option (List Page) :=
  match runModify cfg env with
  | .error _ => prior
  | .ok out =>
      some ((if cfg.appendToExisting then prior.getD [] else []) ++ out)

/-- The human-readable cause put on the result queue for each exception
family (the code formats the caught exception into the message text). -/
def errorMessage : PdfError → String
  | .fileNotFound => "Error: File not found."
  | .invalidRange => "Error: Invalid argument for action. Invalid page range."
  | .emptyRange => "Error: The specified page range is empty."
  | .invalidMargin =>
      "Error: Invalid argument for action. Invalid margin proportion."
  | .emptyBackground =>
      "Error: Invalid argument for action. The background file has no pages."
  | .emptyMergeSource =>
      "Error: Invalid argument for action. The merge PDF has no pages."
  | .unknownPaperSize =>
      "Error: Invalid argument for action. Invalid target size."

/-- The messages the worker body puts on the result queue: `"success"` after
a completed run, the formatted cause when an exception was caught by one of
the `except` handlers, and nothing for the empty-range early return (which
prints an error but returns without using the queue).  This function is
total: the worker body never propagates an exception to its caller. -/
def workerMessages (cfg : Config) (env : DocEnv) : List String :=
  match runModify cfg env with
  | .ok _ => ["success"]
  | .error .emptyRange => []
  | .error e => [errorMessage e]

/-! ### Helper lemmas -/

/-- When the three range validations pass, `computeRange` succeeds with the
clamped end index and warns exactly when the configured end exceeded the
document length. -/
theorem computeRange_eq_ok (N s : ℤ) (e? : Option ℤ)
    (h0 : 0 ≤ s) (h1 : s < N) (h2 : ∀ e, e? = some e → s < e) :
    computeRange N s e? =
      .ok (min (e?.getD N) N, decide (N < e?.getD N)) := by
  have hs0 : ¬ s < 0 := not_lt.mpr h0
  have hsN : ¬ N ≤ s := not_le.mpr h1
  cases e? with
  | none =>
      simp only [computeRange, endBeforeStart, Option.getD_none, hs0, hsN,
        if_false, Bool.false_eq_true, lt_irrefl, min_self, decide_eq_false,
        not_false_eq_true]
  | some e0 =>
      have hse : s < e0 := h2 e0 rfl
      simp only [computeRange, endBeforeStart, Option.getD_some, hs0, hsN,
        if_false, decide_eq_true_eq, not_le.mpr hse, Bool.false_eq_true]
      by_cases hc : N < e0
      · simp [hc, min_eq_right hc.le]
      · simp [hc, min_eq_left (not_lt.mp hc)]

/-- The only error `computeRange` produces is the invalid-range error. -/
theorem computeRange_error_elim (N s : ℤ) (e? : Option ℤ) (err : PdfError)
    (h : computeRange N s e? = .error err) : err = .invalidRange := by
  unfold computeRange at h
  split_ifs at h with h1 h2 h3 h4 <;>
    first
    | exact (Except.error.inj h).symm
    | exact absurd h (by simp)

/-- The invalid-range error occurs exactly under the three failing
conditions of the validation block. -/
theorem computeRange_invalidRange_iff (N s : ℤ) (e? : Option ℤ) :
    computeRange N s e? = .error .invalidRange ↔
      s < 0 ∨ (∃ e, e? = some e ∧ e ≤ s) ∨ N ≤ s := by
  constructor
  · intro h
    by_contra hc
    push_neg at hc
    obtain ⟨hc1, hc2, hc3⟩ := hc
    rw [computeRange_eq_ok N s e? hc1 hc3 hc2] at h
    exact absurd h (by simp)
  · intro h
    unfold computeRange
    rcases h with h | ⟨e, he, hle⟩ | h
    · rw [if_pos h]
    · subst he
      simp only [endBeforeStart, decide_eq_true_eq]
      split_ifs with h1 h2 <;> first | rfl | exact absurd hle h2
    · split_ifs with h1 h2 <;> first | rfl | exact absurd h (not_le.mpr (by omega))

/-- A successful `computeRange` result is a proper, in-bounds range. -/
theorem computeRange_ok_bounds (N s : ℤ) (e? : Option ℤ) (e : ℤ) (w : Bool)
    (h : computeRange N s e? = .ok (e, w)) : 0 ≤ s ∧ s < e ∧ e ≤ N := by
  cases e? with
  | none =>
      unfold computeRange at h
      simp only [Option.getD_none] at h
      split_ifs at h with h1 h2 h3 h4 <;> simp_all <;> omega
  | some e0 =>
      unfold computeRange at h
      simp only [Option.getD_some, endBeforeStart, decide_eq_true_eq] at h
      split_ifs at h with h1 h2 h3 h4 <;> simp_all <;> omega

/-- Length of the validated slice. -/
theorem slicePages_length {α : Type} (xs : List α) (s e : ℤ)
    (h0 : 0 ≤ s) (he : e ≤ (xs.length : ℤ)) :
    (slicePages xs s e).length = (e - s).toNat := by
  unfold slicePages
  rw [List.length_take, List.length_drop]
  omega

/-- Indexing into the validated slice reads the source at the shifted
index. -/
theorem slicePages_getElem {α : Type} (xs : List α) (s e : ℤ) (i : ℕ)
    (hi : i < (slicePages xs s e).length) :
    (slicePages xs s e)[i]? = xs[s.toNat + i]? := by
  unfold slicePages at hi ⊢
  have hib : i < (e - s).toNat := by
    rw [List.length_take, List.length_drop] at hi
    omega
  rw [List.getElem?_take_of_lt hib, List.getElem?_drop]

/-- The fixed side-by-side destination size evaluates to A4 landscape. -/
theorem a4LandscapeDims_eq : a4LandscapeDims = (842, 595) := by
  simp [a4LandscapeDims, lookupSize, PAPER_SIZES, BASE_PAPER_SIZES,
    landscapeEntry]

/-- The errors of `_add_note_margin`. -/
theorem addNoteMargin_error (p : ℚ) (bg : Option FileRef) (pages : List Page)
    (e : PdfError) (h : addNoteMargin p bg pages = .error e) :
    e = .invalidMargin ∨ e = .fileNotFound ∨ e = .emptyBackground := by
  rcases bg with _ | (_ | (_ | ⟨b, bs⟩)) <;>
    (unfold addNoteMargin at h; split_ifs at h <;> simp_all)

/-- The errors of `_merge_pdf_side_by_side`. -/
theorem mergeSideBySide_error (mf : FileRef) (pages : List Page)
    (e : PdfError) (h : mergeSideBySide mf pages = .error e) :
    e = .fileNotFound ∨ e = .emptyMergeSource := by
  rcases mf with _ | (_ | ⟨m, ms⟩) <;>
    (unfold mergeSideBySide at h; split_ifs at h <;> simp_all)

/-- The only error of `_resize_pdf`. -/
theorem resizePdf_error (targetSize : String) (pages : List Page)
    (e : PdfError) (h : resizePdf targetSize pages = .error e) :
    e = .unknownPaperSize := by
  unfold resizePdf at h
  rcases hl : lookupSize PAPER_SIZES targetSize with _ | ⟨tw, th⟩
  · rw [hl] at h
    exact (Except.error.inj h).symm
  · rw [hl] at h
    split_ifs at h <;> exact absurd h (by simp)

/-- A chain step never produces the range errors: those arise only in the
validation block, before the chain runs. -/
theorem applyAction_error_ne (cfg : Config) (env : DocEnv)
    (pages : List Page) (a : Action) (err : PdfError)
    (h : applyAction cfg env pages a = .error err) :
    err ≠ .invalidRange ∧ err ≠ .emptyRange := by
  cases a with
  | duplicate => exact absurd h (by simp [applyAction])
  | add_notes =>
      rcases hx : addNoteMargin cfg.marginProportion env.background pages with
        e | v
      · rw [applyAction, hx] at h
        have := addNoteMargin_error _ _ _ _ hx
        have he : e = err := Except.error.inj h
        subst he
        rcases this with rfl | rfl | rfl <;> exact ⟨by simp, by simp⟩
      · rw [applyAction, hx] at h
        exact absurd h (by simp [Except.map])
  | merge_side_by_side =>
      rcases hx : mergeSideBySide env.mergeFile pages with e | v
      · rw [applyAction, hx] at h
        have := mergeSideBySide_error _ _ _ hx
        have he : e = err := Except.error.inj h
        subst he
        rcases this with rfl | rfl <;> exact ⟨by simp, by simp⟩
      · rw [applyAction, hx] at h
        exact absurd h (by simp [Except.map])
  | resize =>
      rcases hx : resizePdf cfg.targetSize pages with e | v
      · rw [applyAction, hx] at h
        have := resizePdf_error _ _ _ hx
        have he : e = err := Except.error.inj h
        subst he
        subst this
        exact ⟨by simp, by simp⟩
      · rw [applyAction, hx] at h
        exact absurd h (by simp [Except.map])

/-- The whole action chain never produces the range errors. -/
theorem applyChain_error_ne (cfg : Config) (env : DocEnv)
    (acts : List Action) (pages : List Page) (err : PdfError)
    (h : applyChain cfg env acts pages = .error err) :
    err ≠ .invalidRange ∧ err ≠ .emptyRange := by
  induction acts generalizing pages with
  | nil => exact absurd h (by simp [applyChain])
  | cons a rest ih =>
      rw [applyChain] at h
      rcases hx : applyAction cfg env pages a with e | out
      · rw [hx] at h
        have he : e = err := Except.error.inj h
        exact he ▸ applyAction_error_ne cfg env pages a e hx
      · rw [hx] at h
        exact ih out h

/-- Errors of the select step are exactly the errors of the validation
block. -/
theorem selectPages_error_iff {α : Type} (doc : List α) (s : ℤ)
    (e? : Option ℤ) (err : PdfError) :
    selectPages doc s e? = .error err ↔
      computeRange (doc.length : ℤ) s e? = .error err := by
  unfold selectPages
  rcases hcr : computeRange (doc.length : ℤ) s e? with e | ⟨a, b⟩ <;>
    simp [hcr]

/-- A successful select step yields a non-empty page list. -/
theorem selectPages_ok_ne_nil {α : Type} (doc : List α) (s : ℤ)
    (e? : Option ℤ) (out : List α) (w : Bool)
    (h : selectPages doc s e? = .ok (out, w)) : out ≠ [] := by
  unfold selectPages at h
  rcases hcr : computeRange (doc.length : ℤ) s e? with e | ⟨ee, ww⟩ <;>
    rw [hcr] at h
  · exact absurd h (by simp)
  · obtain ⟨h0, h1, h2⟩ := computeRange_ok_bounds _ _ _ _ _ hcr
    have hout : slicePages doc s ee = out := by
      have := Except.ok.inj h
      exact (Prod.mk.injEq .. ▸ this).1
    intro hnil
    have hlen := slicePages_length doc s ee h0 h2
    rw [hout, hnil] at hlen
    simp at hlen
    omega

/-! ### Claim theorems -/

/-- C1: the claim says both side-by-side scale factors use the respective
source page's own dimensions.  `modify-pdf.py` (line 199) instead computes
`y_scale_merge = height / page_height` with the primary page's height.  At
the A4-landscape destination (842 x 595), primary page 421 x 595 and merge
page 421 x 1190, that code produces `scale_merge = 1`, while the claimed
formula `min((destWidth/2)/mergeWidth, destHeight/mergeHeight)` (used by
`modify_pdf.py` and `modify_pdf_multiprocess.py`) gives `1/2`. -/
theorem mergeSideBySideOld_wrong_merge_scale :
    (mergeSideBySidePageOld a4LandscapeDims.1 a4LandscapeDims.2
        ⟨421, 1190⟩ ⟨421, 595⟩).ops.map MergeOp.scale = [1, 1] ∧
    (mergeSideBySidePage a4LandscapeDims.1 a4LandscapeDims.2
        ⟨421, 1190⟩ ⟨421, 595⟩).ops.map MergeOp.scale = [1, 1 / 2] ∧
    min ((a4LandscapeDims.1 / 2) / (421 : ℚ))
      (a4LandscapeDims.2 / (1190 : ℚ)) = 1 / 2 := by
  rw [a4LandscapeDims_eq]
  refine ⟨?_, ?_, ?_⟩ <;>
    norm_num [mergeSideBySidePageOld, mergeSideBySidePage, min_def]

/-- C4: duplication yields a sequence of twice the length in which the pages
at indices `2i` and `2i+1` both equal the input page at index `i`; the empty
input yields the empty output. -/
theorem duplicatePages_spec {α : Type} (l : List α) :
    (duplicatePages l).length = 2 * l.length ∧
    duplicatePages ([] : List α) = [] ∧
    ∀ i : ℕ, i < l.length →
      (duplicatePages l)[2 * i]? = l[i]? ∧
      (duplicatePages l)[2 * i + 1]? = l[i]? := by
  refine ⟨?_, rfl, ?_⟩
  · induction l with
    | nil => rfl
    | cons a t ih => simp [duplicatePages, ih]; ring
  · intro i hi
    induction l generalizing i with
    | nil => exact absurd hi (by simp)
    | cons a t ih =>
        cases i with
        | zero => simp [duplicatePages]
        | succ j =>
            have hj : j < t.length := by simpa using hi
            have h2 : 2 * (j + 1) = 2 * j + 1 + 1 := by ring
            rw [h2]
            simpa [duplicatePages] using ih j hj

/-- C5: for a margin proportion in `[0,1)`, the note-margin operation builds
a destination page of width `w / (1 - marginProportion)` and unchanged
height, and merges the original page with the identity transform (scale 1 at
the origin) as its first merge; with proportion `1/2` a page of width 100
yields a destination width of 200. -/
theorem addNoteMargin_dimensions (p : ℚ)
    (bg? : Option Page) (pg : Page) (h0 : 0 ≤ p) (h1 : p < 1) :
    addNoteMargin p none [pg] =
      .ok [⟨pg.width / (1 - p), pg.height, [⟨pg, 1, 0, 0⟩]⟩] ∧
    (addNoteMarginPage p bg? pg).width = pg.width / (1 - p) ∧
    (addNoteMarginPage p bg? pg).height = pg.height ∧
    (addNoteMarginPage p bg? pg).ops.head? = some ⟨pg, 1, 0, 0⟩ ∧
    (addNoteMarginPage (1 / 2) bg? ⟨100, pg.height⟩).width = 200 := by
  refine ⟨?_, ?_, ?_, ?_, ?_⟩
  · simp [addNoteMargin, addNoteMarginPage, h0, h1]
  · cases bg? <;> rfl
  · cases bg? <;> rfl
  · cases bg? <;> rfl
  · cases bg? <;> norm_num [addNoteMarginPage]

/-- C7: when the target-size lookup yields the (positive) dimensions the
page already has, the computed scale is exactly 1 and the produced page has
exactly the target dimensions, so a second resize produces a page of the
same dimensions again. -/
theorem resizePdf_idempotent_on_target (name : String) (tw th : ℚ)
    (pg : Page) (hlook : lookupSize PAPER_SIZES name = some (tw, th))
    (htw : 0 < tw) (hth : 0 < th)
    (hw : pg.width = tw) (hh : pg.height = th) :
    resizePdf name [pg] = .ok [⟨tw, th, [⟨pg, 1, 0, 0⟩]⟩] ∧
    resizePdf name [DestPage.toPage ⟨tw, th, [⟨pg, 1, 0, 0⟩]⟩] =
      .ok [⟨tw, th, [⟨⟨tw, th⟩, 1, 0, 0⟩]⟩] := by
  obtain ⟨pw, ph⟩ := pg
  simp only [Page.mk.injEq] at hw hh ⊢
  subst hw hh
  constructor
  · simp [resizePdf, hlook, resizePage, div_self htw.ne', div_self hth.ne']
  · simp [resizePdf, hlook, resizePage, DestPage.toPage,
      div_self htw.ne', div_self hth.ne']

/-- C8 counterexample: the claim requires every registry to hold a
`_Landscape` entry for each canonical entry, but the `PAPER_SIZES`
dictionary of `modify_pdf.py` / `modify-pdf.py` holds the canonical `A4`
entry and no `A4_Landscape` entry (only the multiprocess registry generates
the landscape variants). -/
theorem simple_registry_lacks_landscape :
    lookupSize PAPER_SIZES_simple "A4" = some (595, 842) ∧
    lookupSize PAPER_SIZES_simple "A4_Landscape" = none ∧
    lookupSize PAPER_SIZES "A4_Landscape" = some (842, 595) := by
  refine ⟨?_, ?_, ?_⟩ <;>
    simp [lookupSize, PAPER_SIZES, PAPER_SIZES_simple, BASE_PAPER_SIZES,
      landscapeEntry]

/-- C8 (amended): in the multiprocess registry every canonical base entry
`(name, w, h)` is present and has a companion `name_Landscape` entry with
the dimensions swapped, and the registry holds exactly the base entries
followed by their generated landscape variants; the registry of
`modify_pdf.py` / `modify-pdf.py` is the bare base table, with no landscape
entry for any canonical name. -/
theorem registry_landscape_variants (n : String) (w h : ℚ)
    (hmem : (n, w, h) ∈ BASE_PAPER_SIZES) :
    lookupSize PAPER_SIZES n = some (w, h) ∧
    lookupSize PAPER_SIZES (n ++ "_Landscape") = some (h, w) ∧
    lookupSize PAPER_SIZES_simple (n ++ "_Landscape") = none ∧
    PAPER_SIZES = BASE_PAPER_SIZES ++ BASE_PAPER_SIZES.map landscapeEntry := by
  fin_cases hmem <;>
    refine ⟨?_, ?_, ?_, rfl⟩ <;>
      simp [lookupSize, PAPER_SIZES, PAPER_SIZES_simple, BASE_PAPER_SIZES,
        landscapeEntry]

/-- C2: for every start and optional end passing validation, the extracted
pages are exactly the in-order contiguous slice of the source with indices
in the half-open interval from start to the end clamped at the total page
count, and the clamping warning is emitted (with a successful result, not
an error) exactly when the configured end exceeds the total page count. -/
theorem selectPages_clamped_slice (doc : List Page) (s : ℤ) (e? : Option ℤ)
    (h0 : 0 ≤ s) (h1 : s < (doc.length : ℤ))
    (h2 : ∀ e, e? = some e → s < e) :
    ∃ out warned,
      selectPages doc s e? = .ok (out, warned) ∧
      (out.length : ℤ) =
        min (e?.getD (doc.length : ℤ)) (doc.length : ℤ) - s ∧
      (∀ i : ℕ, i < out.length → out[i]? = doc[s.toNat + i]?) ∧
      (warned = true ↔ (doc.length : ℤ) < e?.getD (doc.length : ℤ)) := by
  have hcr := computeRange_eq_ok (doc.length : ℤ) s e? h0 h1 h2
  set N : ℤ := (doc.length : ℤ) with hN
  refine ⟨slicePages doc s (min (e?.getD N) N),
    decide (N < e?.getD N), ?_, ?_, ?_, ?_⟩
  · simp [selectPages, hcr]
  · rw [slicePages_length doc s _ h0 (min_le_right _ _)]
    have hse : s < min (e?.getD N) N := by
      rcases e? with _ | e0
      · simpa using h1
      · have := h2 e0 rfl
        simp only [Option.getD_some]
        omega
    omega
  · intro i hi
    exact slicePages_getElem doc s _ i hi
  · simp

/-- C3: with an input document open, the run fails with the invalid-range
error exactly when start is negative, or an end is supplied that is at most
start, or start is at least the total page count; and an invalid-range
failure leaves the output path in its prior state (the final write only
happens on the success path, after validation and all transformations). -/
theorem runModify_invalidRange_iff (cfg : Config) (env : DocEnv)
    (doc : List Page) (hdoc : env.input = some (.doc doc)) :
    (runModify cfg env = .error .invalidRange ↔
      cfg.startPage < 0 ∨
      (∃ e, cfg.endPage? = some e ∧ e ≤ cfg.startPage) ∨
      (doc.length : ℤ) ≤ cfg.startPage) ∧
    ∀ prior, runModify cfg env = .error .invalidRange →
      finalOutputFile cfg env prior = prior := by
  refine ⟨?_, fun prior h => by simp [finalOutputFile, h]⟩
  rw [← computeRange_invalidRange_iff (doc.length : ℤ) cfg.startPage
    cfg.endPage?]
  simp only [runModify, hdoc]
  constructor
  · intro h
    rcases hsel : selectPages doc cfg.startPage cfg.endPage? with
      e | ⟨pages, w⟩ <;> simp only [hsel] at h
    · have he : e = .invalidRange := Except.error.inj h
      subst he
      exact (selectPages_error_iff doc _ _ _).mp hsel
    · exfalso
      by_cases hemp : pages.isEmpty && !cfg.actions.isEmpty
      · rw [if_pos hemp] at h
        exact absurd (Except.error.inj h) (by simp)
      · rw [if_neg hemp] at h
        exact (applyChain_error_ne _ _ _ _ _ h).1 rfl
  · intro h
    have : selectPages doc cfg.startPage cfg.endPage? =
        .error .invalidRange :=
      (selectPages_error_iff doc _ _ _).mpr h
    rw [this]

/-- C6: the note-margin operation fails with the invalid-margin error
exactly when the margin proportion lies outside `[0,1)` (the check runs
first, before the pages or the background file are touched), and any failed
run leaves the output path in its prior state: the single write happens
only on the success path. -/
theorem addNoteMargin_invalidMargin_iff :
    (∀ (p : ℚ) (bg : Option FileRef) (pages : List Page),
        addNoteMargin p bg pages = .error .invalidMargin ↔
          ¬ (0 ≤ p ∧ p < 1)) ∧
    ∀ (cfg : Config) (env : DocEnv) (prior : Option (List Page))
      (e : PdfError),
      runModify cfg env = .error e → finalOutputFile cfg env prior = prior := by
  refine ⟨?_, fun cfg env prior e h => by simp [finalOutputFile, h]⟩
  intro p bg pages
  constructor
  · intro h
    by_contra hc
    unfold addNoteMargin at h
    rw [if_neg (not_not_intro hc)] at h
    split_ifs at h
    rcases bg with _ | (_ | (_ | ⟨b, bs⟩)) <;> simp_all
  · intro h
    unfold addNoteMargin
    rw [if_pos h]

/-- C9: every exception raised in the worker body (opening, range
validation, a transformation) is caught and turned into exactly one
human-readable failure message on the result queue; `workerMessages` is a
total function of the run, so the worker body never propagates an
exception.  The empty-range early return is excluded because the code
reaches it by a plain `return`, not by raising. -/
theorem workerMessages_failure (cfg : Config) (env : DocEnv) (e : PdfError)
    (h : runModify cfg env = .error e) (hne : e ≠ .emptyRange) :
    workerMessages cfg env = [errorMessage e] := by
  unfold workerMessages
  rw [h]
  cases e <;> simp_all

/-- C10: the empty-range early return is reachable only when no input
document was configured: whenever the range validation of an open input
document succeeds, the extracted slice is non-empty. -/
theorem emptyRange_only_without_input :
    (∀ (cfg : Config) (env : DocEnv),
        runModify cfg env = .error .emptyRange → env.input = none) ∧
    ∀ (doc : List Page) (s : ℤ) (e? : Option ℤ) (out : List Page)
      (w : Bool),
      selectPages doc s e? = .ok (out, w) → out ≠ [] := by
  refine ⟨?_, fun doc s e? out w h => selectPages_ok_ne_nil doc s e? out w h⟩
  intro cfg env h
  rcases hin : env.input with _ | (_ | doc)
  · rfl
  · exfalso
    simp only [runModify, hin] at h
    exact absurd (Except.error.inj h) (by simp)
  · exfalso
    simp only [runModify, hin] at h
    rcases hsel : selectPages doc cfg.startPage cfg.endPage? with
      e | ⟨pages, w⟩ <;> simp only [hsel] at h
    · have he := (selectPages_error_iff doc _ _ _).mp hsel
      have : e = .invalidRange := computeRange_error_elim _ _ _ _ he
      subst this
      exact absurd (Except.error.inj h) (by simp)
    · by_cases hemp : pages.isEmpty && !cfg.actions.isEmpty
      · have hne := selectPages_ok_ne_nil doc _ _ _ _ hsel
        have : pages.isEmpty = true := by
          rcases Bool.and_eq_true .. ▸ hemp with ⟨h1, -⟩
          exact h1
        exact hne (List.isEmpty_iff.mp this)
      · rw [if_neg hemp] at h
        exact (applyChain_error_ne _ _ _ _ _ h).2 rfl

/-! ### Witnesses -/

/-- Witness for C2: a three-page document, start 1, configured end 9. -/
theorem selectPages_clamped_slice_witness :
    ∃ out warned,
      selectPages ([⟨1, 2⟩, ⟨3, 4⟩, ⟨5, 6⟩] : List Page) 1 (some 9) =
        .ok (out, warned) ∧
      (out.length : ℤ) =
        min ((some (9 : ℤ)).getD (([⟨1, 2⟩, ⟨3, 4⟩, ⟨5, 6⟩] :
          List Page).length : ℤ) : ℤ)
          ((([⟨1, 2⟩, ⟨3, 4⟩, ⟨5, 6⟩] : List Page).length : ℤ)) - 1 ∧
      (∀ i : ℕ, i < out.length →
        out[i]? = ([⟨1, 2⟩, ⟨3, 4⟩, ⟨5, 6⟩] : List Page)[(1 : ℤ).toNat + i]?) ∧
      (warned = true ↔
        ((([⟨1, 2⟩, ⟨3, 4⟩, ⟨5, 6⟩] : List Page).length : ℤ) <
          (some (9 : ℤ)).getD (([⟨1, 2⟩, ⟨3, 4⟩, ⟨5, 6⟩] :
            List Page).length : ℤ))) :=
  selectPages_clamped_slice [⟨1, 2⟩, ⟨3, 4⟩, ⟨5, 6⟩] 1 (some 9)
    (by norm_num) (by norm_num)
    (by intro e he; simp at he; omega)

/-- Witness for C3: a negative start page fails with the invalid-range
error. -/
theorem runModify_invalidRange_iff_witness :
    runModify ⟨[.duplicate], 1 / 2, "A4", -1, none, false⟩
      ⟨some (.doc [⟨100, 80⟩]), none, .absent⟩ = .error .invalidRange :=
  ((runModify_invalidRange_iff ⟨[.duplicate], 1 / 2, "A4", -1, none, false⟩
    ⟨some (.doc [⟨100, 80⟩]), none, .absent⟩ [⟨100, 80⟩] rfl).1).mpr
    (Or.inl (by norm_num))

/-- Witness for C4: duplicating a three-element list, checked at index 1. -/
theorem duplicatePages_spec_witness :
    (duplicatePages [10, 20, 30] : List ℕ)[2 * 1]? = [10, 20, 30][1]? :=
  ((duplicatePages_spec [10, 20, 30]).2.2 1 (by norm_num)).1

/-- Witness for C5: margin proportion one half on a 100 x 80 page. -/
theorem addNoteMargin_dimensions_witness :
    addNoteMargin (1 / 2 : ℚ) none [(⟨100, 80⟩ : Page)] =
      .ok [⟨(100 : ℚ) / (1 - 1 / 2), 80, [⟨⟨100, 80⟩, 1, 0, 0⟩]⟩] :=
  (addNoteMargin_dimensions (1 / 2) none ⟨100, 80⟩
    (by norm_num) (by norm_num)).1

/-- Witness for C6: margin proportion 1 is rejected with the invalid-margin
error. -/
theorem addNoteMargin_invalidMargin_iff_witness :
    addNoteMargin (1 : ℚ) none [(⟨100, 80⟩ : Page)] =
      .error .invalidMargin :=
  (addNoteMargin_invalidMargin_iff.1 1 none [⟨100, 80⟩]).mpr (by norm_num)

/-- Witness for C7: resizing an A4-sized page to A4. -/
theorem resizePdf_idempotent_on_target_witness :
    resizePdf "A4" [(⟨595, 842⟩ : Page)] =
      .ok [⟨595, 842, [⟨⟨595, 842⟩, 1, 0, 0⟩]⟩] :=
  (resizePdf_idempotent_on_target "A4" 595 842 ⟨595, 842⟩
    (by simp [lookupSize, PAPER_SIZES, BASE_PAPER_SIZES, landscapeEntry])
    (by norm_num) (by norm_num) rfl rfl).1

/-- Witness for C8 (amended): the A4 base entry has its landscape
companion in the multiprocess registry. -/
theorem registry_landscape_variants_witness :
    lookupSize PAPER_SIZES ("A4" ++ "_Landscape") = some (842, 595) :=
  (registry_landscape_variants "A4" 595 842 (by simp [BASE_PAPER_SIZES])).2.1

/-- Witness for C9: an invalid margin in the chain is reported as a single
failure message on the queue. -/
theorem workerMessages_failure_witness :
    workerMessages ⟨[.add_notes], 2, "A4", 0, none, false⟩
      ⟨some (.doc [⟨100, 80⟩]), none, .absent⟩ =
      [errorMessage .invalidMargin] :=
  workerMessages_failure ⟨[.add_notes], 2, "A4", 0, none, false⟩
    ⟨some (.doc [⟨100, 80⟩]), none, .absent⟩ .invalidMargin
    (by norm_num [runModify, selectPages, computeRange, endBeforeStart,
      slicePages, applyChain, applyAction, addNoteMargin, Except.map])
    (by simp)

/-- Witness for C10: a run with no input document reaches the empty-range
early return. -/
theorem emptyRange_only_without_input_witness :
    (⟨none, none, .absent⟩ : DocEnv).input = none :=
  emptyRange_only_without_input.1 ⟨[.duplicate], 1 / 2, "A4", 0, none, false⟩
    ⟨none, none, .absent⟩ rfl

end ModifyPdf
